import Mathlib

/-!
Verification development for the `mcjointcoll` diagnostic program
(`src/main.cpp`), a PhysX 3.3 joint/collision-filtering bug-reproduction
harness.  The embedding below translates the program's data model and
operations into Lean: vector/quaternion/transform arithmetic follows the
engine's exact formulas (`PxQuat`, `PxTransform` of PhysX 3.3) over `ℚ`,
global engine handles become an explicit session-state record, and the
scene content touched by `addFixedJoint` and `updateStates` becomes an
explicit world state.
-/

/-- Entity identifier, `using EntityID = int` in the source. -/
abbrev EntityID := Int

/-- 3-component vector over `ℚ`, embedding `PxVec3` / glm `vec3`. -/
structure Vec3 where
  x : ℚ
  y : ℚ
  z : ℚ
deriving DecidableEq, Repr

/-- Quaternion, embedding `PxQuat` / glm `quat`; fields in `(x, y, z, w)`
component order as in `PxQuat`. -/
structure Quat where
  x : ℚ
  y : ℚ
  z : ℚ
  w : ℚ
deriving DecidableEq, Repr

namespace Vec3

def add (a b : Vec3) : Vec3 := ⟨a.x + b.x, a.y + b.y, a.z + b.z⟩

def neg (a : Vec3) : Vec3 := ⟨-a.x, -a.y, -a.z⟩

def dot (a b : Vec3) : ℚ := a.x * b.x + a.y * b.y + a.z * b.z

def cross (a b : Vec3) : Vec3 :=
  ⟨a.y * b.z - a.z * b.y, a.z * b.x - a.x * b.z, a.x * b.y - a.y * b.x⟩

def smul (c : ℚ) (a : Vec3) : Vec3 := ⟨c * a.x, c * a.y, c * a.z⟩

def zero : Vec3 := ⟨0, 0, 0⟩

end Vec3

namespace Quat

/-- `PxQuat(PxIdentity)`: the identity quaternion `(0,0,0,1)`. -/
def identity : Quat := ⟨0, 0, 0, 1⟩

/-- `PxQuat::getConjugate()`. -/
def conj (q : Quat) : Quat := ⟨-q.x, -q.y, -q.z, q.w⟩

/-- The vector (imaginary) part of a quaternion. -/
def vecPart (q : Quat) : Vec3 := ⟨q.x, q.y, q.z⟩

/-- `PxQuat` Hamilton product, exact formula of `PxQuat::operator*`. -/
def mul (p q : Quat) : Quat :=
  ⟨p.w * q.x + q.w * p.x + p.y * q.z - p.z * q.y,
   p.w * q.y + q.w * p.y + p.z * q.x - p.x * q.z,
   p.w * q.z + q.w * p.z + p.x * q.y - p.y * q.x,
   p.w * q.w - p.x * q.x - p.y * q.y - p.z * q.z⟩

/-- `PxQuat::rotate(v)`: the engine computes
`(v*(w*w-0.5) + (u × v)*w + u*(u·v)) * 2` with `u` the vector part.
For a unit quaternion this is the rotation `q v q⁻¹`. -/
def rotate (q : Quat) (v : Vec3) : Vec3 :=
  Vec3.smul 2 (Vec3.add (Vec3.add (Vec3.smul (q.w * q.w - 1/2) v)
    (Vec3.smul q.w (Vec3.cross q.vecPart v)))
    (Vec3.smul (Vec3.dot q.vecPart v) q.vecPart))

/-- `PxQuat::rotateInv(v)`: the engine computes
`(v*(w*w-0.5) - (u × v)*w + u*(u·v)) * 2`. -/
def rotateInv (q : Quat) (v : Vec3) : Vec3 :=
  Vec3.smul 2 (Vec3.add (Vec3.add (Vec3.smul (q.w * q.w - 1/2) v)
    (Vec3.smul (-q.w) (Vec3.cross q.vecPart v)))
    (Vec3.smul (Vec3.dot q.vecPart v) q.vecPart))

/-- Unit-norm predicate: what PhysX calls a valid (sane) rotation. -/
def isUnit (q : Quat) : Prop :=
  q.x * q.x + q.y * q.y + q.z * q.z + q.w * q.w = 1

instance (q : Quat) : Decidable q.isUnit := by
  unfold isUnit; infer_instance

end Quat

/-- Embedding of `PxTransform`: translation `p` and rotation `q`. -/
structure PxTransform where
  p : Vec3
  q : Quat
deriving DecidableEq, Repr

namespace PxTransform

/-- `PxTransform::transform(const PxVec3&)`: `q.rotate(input) + p`. -/
def transformPt (t : PxTransform) (v : Vec3) : Vec3 :=
  Vec3.add (t.q.rotate v) t.p

/-- `PxTransform::operator*` / `transform(const PxTransform&)`:
`PxTransform(q.rotate(src.p) + p, q * src.q)`. -/
def tmul (t s : PxTransform) : PxTransform :=
  ⟨Vec3.add (t.q.rotate s.p) t.p, t.q.mul s.q⟩

/-- `PxTransform::getInverse()`: `PxTransform(q.rotateInv(-p), q.getConjugate())`. -/
def getInverse (t : PxTransform) : PxTransform :=
  ⟨t.q.rotateInv t.p.neg, t.q.conj⟩

/-- The identity transform. -/
def identity : PxTransform := ⟨Vec3.zero, Quat.identity⟩

end PxTransform

/-- Conversion `toPxVec3`/`toVec3`: componentwise identity in the model. -/
def toVec3 (v : Vec3) : Vec3 := v

/-- Conversion `toPxQuat`/`toQuat`: same quaternion (glm stores `(w,x,y,z)`,
PhysX `(x,y,z,w)`; the conversions in the source permute components so the
round trip is the identity on the abstract quaternion). -/
def toQuat (q : Quat) : Quat := q

/-! ## Shapes, bodies, joints and the scene world touched by `addFixedJoint` -/

/-- `PxFilterData`: four 32-bit words per shape (values kept as `Nat`;
the program only copies and compares them). -/
structure PxFilterData where
  word0 : Nat
  word1 : Nat
  word2 : Nat
  word3 : Nat
deriving DecidableEq, Repr

/-- A collision shape attached to a rigid body: a geometry id and its
simulation filter data. -/
structure PxShape where
  geomId : Nat
  simulationFilterData : PxFilterData
deriving DecidableEq, Repr

/-- A rigid dynamic body: world pose plus its attached shapes in
shape-index order (`getShapes` order). -/
structure Body where
  pose : PxTransform
  shapes : List PxShape
deriving DecidableEq, Repr

/-- A fixed joint record: `PxFixedJointCreate(physics, actor0, frame0,
actor1, frame1)` plus the `eCOLLISION_ENABLED` constraint flag. -/
structure Joint where
  actor0 : EntityID
  frame0 : PxTransform
  actor1 : EntityID
  frame1 : PxTransform
  collisionEnabled : Bool
deriving DecidableEq, Repr

/-- The part of the physics scene state `addFixedJoint` touches:
each entity's rigid body, and the created joints. -/
structure World where
  bodies : EntityID → Body
  joints : List Joint

/-- Write one entity's body (the effect of mutating through
`entity.body`). -/
def World.setBody (w : World) (i : EntityID) (b : Body) : World :=
  { w with bodies := fun j => if j = i then b else w.bodies j }

/-- `getFilterData(entity)` (src/main.cpp:207): reads every shape's
simulation filter data, in shape-index order. -/
def getFilterData (b : Body) : List PxFilterData :=
  b.shapes.map (fun s => s.simulationFilterData)

/-- `setFilterData(entity, filterData)` (src/main.cpp:222): writes
`filterData[i]` into shape `i` for each shape index.  (At every call
site the list has exactly one entry per shape.) -/
def setFilterData (b : Body) (fd : List PxFilterData) : Body :=
  { b with shapes :=
      (List.zipWith (fun s f => { s with simulationFilterData := f }) b.shapes fd) }

/-- Modelled from the spec: the engine behaviour behind
`joint->setConstraintFlag(PxConstraintFlag::eCOLLISION_ENABLED, false)`
is not part of this repository.  Per the spec's observed-defect note,
the joint-creation/collision-disable sequence resets the per-shape
simulation filter data of the body passed as the joint's second actor
(`actor1`, here `entityA`); the debug snapshots in `main` wrap the whole
call, and the workaround (snapshot taken before the disable, restore
after) is effective, which pins the clobbering to the disable step.  The
engine-determined clobber is kept abstract as `resetFD`. -/
def disableJointCollision (resetFD : PxFilterData → PxFilterData)
    (j : Joint) (actor1Body : Body) : Joint × Body :=
  ({ j with collisionEnabled := false },
   { actor1Body with shapes :=
       (List.map (fun s => { s with simulationFilterData := resetFD s.simulationFilterData })
         actor1Body.shapes) })

/-- `addFixedJoint(entityA, posA, entityB, posB, useWorkaround)`
(src/main.cpp:235-267), step for step:
read `entityB`'s global pose; build the two translation-only anchor
transforms; compute `meAnchor.getInverse() * otherPXTr * otherAnchor`
(left-associated, as in C++); `setGlobalPose` on `entityA`; create the
fixed joint `(actor0 = entityB, actor1 = entityA)`; then either
snapshot/disable/restore (`useWorkaround = true`) or just disable. -/
def addFixedJoint (resetFD : PxFilterData → PxFilterData) (w : World)
    (a : EntityID) (posA : Vec3) (b : EntityID) (posB : Vec3)
    (useWorkaround : Bool) : World :=
  let otherPXTr := (w.bodies b).pose
  let meAnchor : PxTransform := ⟨toVec3 posA, Quat.identity⟩
  let otherAnchor : PxTransform := ⟨toVec3 posB, Quat.identity⟩
  let newMeTr := (meAnchor.getInverse.tmul otherPXTr).tmul otherAnchor
  let w1 := w.setBody a { w.bodies a with pose := newMeTr }
  let joint0 : Joint := ⟨b, otherAnchor, a, meAnchor, true⟩
  if useWorkaround then
    let fd := getFilterData (w1.bodies a)
    let jb := disableJointCollision resetFD joint0 (w1.bodies a)
    let w2 := w1.setBody a jb.2
    let w3 := w2.setBody a (setFilterData (w2.bodies a) fd)
    { w3 with joints := w3.joints ++ [jb.1] }
  else
    let jb := disableJointCollision resetFD joint0 (w1.bodies a)
    let w2 := w1.setBody a jb.2
    { w2 with joints := w2.joints ++ [jb.1] }

/-- The world-space point of a local anchor offset on a body with the
given world pose (the spec's "world anchor point"). -/
def worldAnchor (pose : PxTransform) (localAnchor : Vec3) : Vec3 :=
  pose.transformPt localAnchor

/-! ## Physics session lifecycle (`initPhysics` / `deinitPhysics`) -/

/-- The global engine handles of the session (src/main.cpp:17-22), plus
the profile-zone manager owned by the physics instance, a fresh-handle
counter, and the set of handles released so far (for use-after-free /
null-dereference fault tracking). -/
structure PhysicsState where
  gFoundation : Option Nat
  gDispatcher : Option Nat
  gCooking : Option Nat
  gPhysics : Option Nat
  gPhysicsMaterial : Option Nat
  gPhysicsScene : Option Nat
  pzmHandle : Option Nat
  nextHandle : Nat
  released : List Nat
deriving DecidableEq, Repr

/-- The session state at process start: every global handle is null. -/
def physStart : PhysicsState :=
  ⟨none, none, none, none, none, none, none, 0, []⟩

/-- `initPhysics()` (src/main.cpp:93-123): returns `false` untouched if
`gFoundation` is set, otherwise constructs foundation, profile-zone
manager, physics instance, dispatcher, cooking stage, material and scene
(each a fresh handle) and returns `true`. -/
def initPhysics (s : PhysicsState) : Bool × PhysicsState :=
  if s.gFoundation ≠ none then
    (false, s)
  else
    (true,
     { gFoundation := some s.nextHandle
     , pzmHandle := some (s.nextHandle + 1)
     , gPhysics := some (s.nextHandle + 2)
     , gDispatcher := some (s.nextHandle + 3)
     , gCooking := some (s.nextHandle + 4)
     , gPhysicsMaterial := some (s.nextHandle + 5)
     , gPhysicsScene := some (s.nextHandle + 6)
     , nextHandle := s.nextHandle + 7
     , released := s.released })

/-- Calling `release()` through a handle: faults (`none`) on a null
handle or on a handle already released; otherwise records the release. -/
def releaseHandle (released : List Nat) (h : Option Nat) : Option (List Nat) :=
  match h with
  | none => none
  | some n => if n ∈ released then none else some (n :: released)

/-- Dereferencing a handle without releasing it (e.g.
`gPhysics->getProfileZoneManager()`): faults on null or released. -/
def derefHandle (released : List Nat) (h : Option Nat) : Option Nat :=
  match h with
  | none => none
  | some n => if n ∈ released then none else some n

/-- `deinitPhysics()` (src/main.cpp:125-144): early return if
`gFoundation` is null; otherwise release scene, dispatcher, fetch the
profile-zone manager from the physics instance, release physics,
profile-zone manager, cooking, foundation, then null out
`gDispatcher`, `gPhysics`, `gCooking`, `gFoundation` (and only those).
`none` means a fault (a null or already-released handle was used). -/
def deinitPhysics (s : PhysicsState) : Option PhysicsState :=
  if s.gFoundation = none then some s
  else
    (releaseHandle s.released s.gPhysicsScene).bind (fun r1 =>
    (releaseHandle r1 s.gDispatcher).bind (fun r2 =>
    (derefHandle r2 s.gPhysics).bind (fun _ =>
    (releaseHandle r2 s.gPhysics).bind (fun r3 =>
    (releaseHandle r3 s.pzmHandle).bind (fun r4 =>
    (releaseHandle r4 s.gCooking).bind (fun r5 =>
    (releaseHandle r5 s.gFoundation).bind (fun r6 =>
    some { s with released := r6,
                  gDispatcher := none,
                  gPhysics := none,
                  gCooking := none,
                  gFoundation := none })))))))

/-! ## State synchronization (`updateStates`) -/

/-- Entity fields (src/main.cpp:28-40). -/
structure Entity where
  position : Vec3
  rotation : Quat
  scale : Vec3
deriving DecidableEq, Repr

/-- A rigid dynamic actor as seen by `updateStates`: its world pose and
its `userData` back-reference to the owning entity. -/
structure DynActor where
  pose : PxTransform
  userData : EntityID
deriving DecidableEq, Repr

/-- The scene as seen by `updateStates`: the dynamic actors returned by
`getActors(eRIGID_DYNAMIC)` in order, and all entity instances (both
dynamic and static) indexed by id. -/
structure Scene where
  dynActors : List DynActor
  entities : EntityID → Entity

/-- One loop iteration of `updateStates` (src/main.cpp:178-184): write
the actor's pose translation and rotation into the entity reached
through `userData`. -/
def writeBack (ents : EntityID → Entity) (a : DynActor) : EntityID → Entity :=
  fun i =>
    if i = a.userData then
      { ents a.userData with position := toVec3 a.pose.p, rotation := toQuat a.pose.q }
    else ents i

/-- `updateStates()` (src/main.cpp:166-186): fold `writeBack` over the
dynamic actors (static actors are filtered out by the type-selection
flag and never queried). -/
def updateStates (s : Scene) : Scene :=
  { s with entities := s.dynActors.foldl writeBack s.entities }

/-! ## The render/update loop's 3-second trigger and `main`'s exit code -/

/-- Observable events of the joint-creation trigger block
(src/main.cpp:305-314). -/
inductive LoopEvent where
  | logFilterData (e : EntityID)
  | jointCreated
deriving DecidableEq, Repr

/-- The event sequence of the firing tick (src/main.cpp:307-311):
log A, log B, create the joint, log A, log B. -/
def jointTickEvents (idA idB : EntityID) : List LoopEvent :=
  [LoopEvent.logFilterData idA, LoopEvent.logFilterData idB,
   LoopEvent.jointCreated,
   LoopEvent.logFilterData idA, LoopEvent.logFilterData idB]

/-- The loop's trigger behaviour (src/main.cpp:296-314), one entry per
tick: given the `createJoint` flag and each tick's elapsed seconds since
loop start, emit that tick's trigger-block events.  The flag is set when
the block runs, so it can run at most once. -/
def loopTicks (idA idB : EntityID) : Bool → List ℚ → List (List LoopEvent)
  | _, [] => []
  | cj, t :: ts =>
    if cj = false ∧ 3 < t then
      jointTickEvents idA idB :: loopTicks idA idB true ts
    else
      [] :: loopTicks idA idB cj ts

/-- The startup environment `main` runs against: whether `SDL_Init`
succeeds, whether `graphics.init(1280, 720)` succeeds, and the physics
session state at entry. -/
structure Env where
  sdlOk : Bool
  gfxOk : Bool
  phys0 : PhysicsState
deriving DecidableEq, Repr

/-- `main`'s startup/exit structure (src/main.cpp:269-338): exit code
paired with whether the render/update loop was entered.  `SDL_Init`
failure → `1`; `graphics.init` failure → `1`; `initPhysics()` returning
`false` → clean exit `0` before the loop; otherwise the loop runs and a
quit signal leads to shutdown with exit code `0`. -/
def mainProgram (env : Env) : Nat × Bool :=
  if env.sdlOk = false then (1, false)
  else if env.gfxOk = false then (1, false)
  else if (initPhysics env.phys0).1 = false then (0, false)
  else (0, true)

/-! ## Claim theorems: session lifecycle -/

/-- Claim C1, counterexample: starting from the fresh process state,
after `initPhysics()` succeeds, `deinitPhysics()` does NOT leave every
session handle null — the scene handle is still set afterwards (and so
is the material handle): `deinitPhysics` only nulls `gDispatcher`,
`gPhysics`, `gCooking` and `gFoundation` (src/main.cpp:140-143). -/
theorem deinit_does_not_clear_scene_handle :
    Option.map PhysicsState.gPhysicsScene (deinitPhysics (initPhysics physStart).2)
      ≠ some none := by
  decide

/-- Claim C1 (amended): after `initPhysics()` succeeds from a state with
no stale released handles, `deinitPhysics()` returns without fault and
clears the foundation, dispatcher, cooking and physics-instance handles,
but leaves the scene and default-material handles unchanged (dangling,
still non-null). -/
theorem deinit_clears_core_handles_not_scene_material
    (s : PhysicsState) (hf : s.gFoundation = none)
    (hrel : ∀ n ∈ s.released, n < s.nextHandle) :
    Option.map
      (fun t => (t.gFoundation, t.gDispatcher, t.gCooking, t.gPhysics,
                 t.gPhysicsScene, t.gPhysicsMaterial))
      (deinitPhysics (initPhysics s).2)
    = some (none, none, none, none,
            some (s.nextHandle + 6), some (s.nextHandle + 5)) := by
  have hmem : ∀ k : Nat, s.nextHandle + k ∉ s.released := by
    intro k hk
    have := hrel _ hk
    omega
  have h0 : s.nextHandle ∉ s.released := by
    intro hk
    have := hrel _ hk
    omega
  rw [initPhysics, if_neg (by simp [hf])]
  rw [deinitPhysics]
  simp only [releaseHandle, derefHandle]
  rw [if_neg (by simp)]
  simp [List.mem_cons, hmem, Option.bind, h0]

/-- Claim C1, witness: the amended statement evaluated at the fresh
process state. -/
theorem deinit_clears_core_handles_not_scene_material_witness :
    Option.map
      (fun t => (t.gFoundation, t.gDispatcher, t.gCooking, t.gPhysics,
                 t.gPhysicsScene, t.gPhysicsMaterial))
      (deinitPhysics (initPhysics physStart).2)
    = some (none, none, none, none,
            some (physStart.nextHandle + 6), some (physStart.nextHandle + 5)) :=
  deinit_clears_core_handles_not_scene_material physStart rfl
    (by simp [physStart])

/-- Claim C5: from an uninitialized session, `initPhysics()` returns
success, and a second `initPhysics()` call returns failure and leaves
the session state (handles, counter, everything) exactly as after the
single call, performing no construction. -/
theorem initPhysics_second_call_noop_failure
    (s : PhysicsState) (h : s.gFoundation = none) :
    (initPhysics s).1 = true ∧
    initPhysics (initPhysics s).2 = (false, (initPhysics s).2) := by
  constructor
  · simp [initPhysics, h]
  · simp [initPhysics, h]

/-- Claim C5, witness: evaluated at the fresh process state. -/
theorem initPhysics_second_call_noop_failure_witness :
    (initPhysics physStart).1 = true ∧
    initPhysics (initPhysics physStart).2 = (false, (initPhysics physStart).2) :=
  initPhysics_second_call_noop_failure physStart rfl

/-- Claim C6: `deinitPhysics()` on a not-initialized session
(`gFoundation` null — the state before any `initPhysics()`) takes the
early-return branch: no handle is dereferenced or released (no fault)
and the state is unchanged; and after any successful `deinitPhysics()`,
a second call is likewise a fault-free no-op. -/
theorem deinitPhysics_uninitialized_noop
    (s : PhysicsState) :
    (s.gFoundation = none → deinitPhysics s = some s) ∧
    (∀ s', deinitPhysics s = some s' → deinitPhysics s' = some s') := by
  constructor
  · intro h
    simp [deinitPhysics, h]
  · intro s' hs'
    by_cases hf : s.gFoundation = none
    · simp only [deinitPhysics, hf, if_pos, Option.some.injEq] at hs'
      subst hs'
      simp [deinitPhysics, hf]
    · rw [deinitPhysics, if_neg hf] at hs'
      simp only [Option.bind_eq_some] at hs'
      obtain ⟨r1, h1, r2, h2, p, hp, r3, h3, r4, h4, r5, h5, r6, h6, heq⟩ := hs'
      obtain rfl : s' = _ := (Option.some.injEq _ _ ▸ heq).symm
      rw [deinitPhysics]
      simp

/-- Claim C6, witness: `deinitPhysics` before any `initPhysics` on the
fresh process state is a safe no-op. -/
theorem deinitPhysics_uninitialized_noop_witness :
    deinitPhysics physStart = some physStart :=
  (deinitPhysics_uninitialized_noop physStart).1 rfl

/-! ## Claim theorems: fixed-joint creation -/

attribute [ext] Vec3 Quat PxTransform

theorem Quat.identity_mul (q : Quat) : Quat.identity.mul q = q := by
  cases q
  simp [Quat.mul, Quat.identity]

theorem Quat.mul_identity (q : Quat) : q.mul Quat.identity = q := by
  cases q
  simp [Quat.mul, Quat.identity]

theorem Quat.conj_identity : Quat.identity.conj = Quat.identity := by
  simp [Quat.conj, Quat.identity]

theorem Quat.rotate_identity (v : Vec3) : Quat.identity.rotate v = v := by
  cases v
  simp [Quat.rotate, Quat.identity, Quat.vecPart, Vec3.smul, Vec3.add, Vec3.cross, Vec3.dot]
  refine ⟨by ring, by ring, by ring⟩

theorem Quat.rotateInv_identity (v : Vec3) : Quat.identity.rotateInv v = v := by
  cases v
  simp [Quat.rotateInv, Quat.identity, Quat.vecPart, Vec3.smul, Vec3.add, Vec3.cross, Vec3.dot]
  refine ⟨by ring, by ring, by ring⟩

/-- Frame helper: `addFixedJoint` writes only through `entityA`; any
other entity's body is untouched. -/
theorem addFixedJoint_other_body (resetFD : PxFilterData → PxFilterData) (w : World)
    (a : EntityID) (posA : Vec3) (b : EntityID) (posB : Vec3) (u : Bool) (h : b ≠ a) :
    (addFixedJoint resetFD w a posA b posB u).bodies b = w.bodies b := by
  unfold addFixedJoint World.setBody
  cases u <;> simp [h]

/-- Pose helper: the pose `addFixedJoint` writes to `entityA`'s body is
`meAnchor.getInverse() * otherPXTr * otherAnchor` (src/main.cpp:253-254),
with `otherPXTr` read before the write. -/
theorem addFixedJoint_self_pose (resetFD : PxFilterData → PxFilterData) (w : World)
    (a : EntityID) (posA : Vec3) (b : EntityID) (posB : Vec3) (u : Bool) :
    ((addFixedJoint resetFD w a posA b posB u).bodies a).pose
    = (((⟨posA, Quat.identity⟩ : PxTransform).getInverse.tmul
         (w.bodies b).pose).tmul ⟨posB, Quat.identity⟩) := by
  unfold addFixedJoint World.setBody
  cases u <;> simp [toVec3, setFilterData, disableJointCollision, getFilterData]

/-- Reading back the per-shape filter data after clobbering the shapes
with `g` and then restoring a snapshot of the original data yields the
original data. -/
theorem filter_roundtrip (g : PxFilterData → PxFilterData) (l : List PxShape) :
    List.map (fun s => s.simulationFilterData)
      (List.zipWith (fun s f => { s with simulationFilterData := f })
        (List.map (fun s => { s with simulationFilterData := g s.simulationFilterData }) l)
        (List.map (fun s => s.simulationFilterData) l))
    = List.map (fun s => s.simulationFilterData) l := by
  induction l with
  | nil => rfl
  | cons x xs ih => simp [ih]

/-- A sample shape with distinctive filter words. -/
def sampleShape : PxShape := ⟨0, ⟨1, 2, 3, 4⟩⟩

/-- A sample body at the identity pose. -/
def sampleBodyA : Body := ⟨PxTransform.identity, [sampleShape]⟩

/-- A sample body rotated 180 degrees about the z-axis (a unit
quaternion with rational components). -/
def sampleBodyB : Body := ⟨⟨⟨0, 0, 0⟩, ⟨0, 0, 1, 0⟩⟩, []⟩

/-- A sample world: entity 1 owns the rotated body, every other id the
identity-pose body. -/
def sampleWorld : World := ⟨fun i => if i = 1 then sampleBodyB else sampleBodyA, []⟩

/-- Claim C2, counterexample: with entityB's body rotated 180 degrees
about z (a valid unit-quaternion pose) and `localAnchorA = (1,0,0)`,
`localAnchorB = (0,0,0)`, immediately after `addFixedJoint` the world
anchor point of A is `(-2,0,0)` while the world anchor point of B is
`(0,0,0)`: they do not coincide (exact rational arithmetic, so this is
no floating-point-tolerance artefact). -/
theorem addFixedJoint_anchor_coincidence_fails :
    worldAnchor (((addFixedJoint id sampleWorld 0 ⟨1, 0, 0⟩ 1 ⟨0, 0, 0⟩ false).bodies 0).pose)
      ⟨1, 0, 0⟩
    ≠ worldAnchor (((addFixedJoint id sampleWorld 0 ⟨1, 0, 0⟩ 1 ⟨0, 0, 0⟩ false).bodies 1).pose)
      ⟨0, 0, 0⟩ := by
  simp [addFixedJoint, World.setBody, sampleWorld, sampleBodyA, sampleBodyB, sampleShape,
        worldAnchor, PxTransform.transformPt, PxTransform.tmul, PxTransform.getInverse,
        PxTransform.identity, Quat.rotate, Quat.rotateInv, Quat.conj, Quat.mul, Quat.identity,
        Quat.vecPart, Vec3.smul, Vec3.add, Vec3.cross, Vec3.dot, Vec3.neg, Vec3.zero, toVec3,
        disableJointCollision, setFilterData, getFilterData]
  norm_num

/-- Claim C2 (amended): immediately after
`addFixedJoint(A, localAnchorA, B, localAnchorB)` and before any
simulation step, A's world anchor point coincides exactly with B's world
anchor point, provided entityB's body rotation maps `localAnchorA` to
itself (in particular whenever B's rotation is the identity, or
`localAnchorA` lies on B's rotation axis, or `localAnchorA = 0` — which
covers every call the program makes); for other rotations the computed
pose misses coincidence by `rotate(qB, localAnchorA) - localAnchorA`. -/
theorem addFixedJoint_anchor_coincidence_of_fix (resetFD : PxFilterData → PxFilterData)
    (w : World) (a : EntityID) (posA : Vec3) (b : EntityID) (posB : Vec3) (u : Bool)
    (hab : a ≠ b)
    (hfix : ((w.bodies b).pose.q).rotate posA = posA) :
    worldAnchor (((addFixedJoint resetFD w a posA b posB u).bodies a).pose) posA
    = worldAnchor (((addFixedJoint resetFD w a posA b posB u).bodies b).pose) posB := by
  rw [addFixedJoint_self_pose, addFixedJoint_other_body _ _ _ _ _ _ _ (Ne.symm hab)]
  simp [worldAnchor, PxTransform.transformPt, PxTransform.tmul, PxTransform.getInverse,
        Quat.conj_identity, Quat.identity_mul, Quat.mul_identity, Quat.rotate_identity,
        Quat.rotateInv_identity, hfix]
  ext <;> simp [Vec3.add, Vec3.neg] <;> ring

/-- Claim C2, witness: the amended statement at a concrete input where
entityB's body (entity 0 of the sample world) has identity rotation. -/
theorem addFixedJoint_anchor_coincidence_of_fix_witness :
    worldAnchor (((addFixedJoint id sampleWorld 2 ⟨1, 2, 3⟩ 0 ⟨4, 5, 6⟩ true).bodies 2).pose)
      ⟨1, 2, 3⟩
    = worldAnchor (((addFixedJoint id sampleWorld 2 ⟨1, 2, 3⟩ 0 ⟨4, 5, 6⟩ true).bodies 0).pose)
      ⟨4, 5, 6⟩ :=
  addFixedJoint_anchor_coincidence_of_fix id sampleWorld 2 ⟨1, 2, 3⟩ 0 ⟨4, 5, 6⟩ true
    (by decide)
    (by simp [sampleWorld, sampleBodyA, PxTransform.identity, Quat.rotate_identity])

/-- Claim C3: with `useWorkaround = true`, entityA's per-shape
simulation filter data read after `addFixedJoint` returns equals the
data read immediately before the joint is created (word-for-word, all
shapes, shape-index order), for every clobbering behaviour `resetFD` the
collision-disable step may exhibit: the snapshot taken before the
disable is restored afterwards, and in this model the joint creation
itself leaves filter data untouched. -/
theorem addFixedJoint_workaround_preserves_filter_data
    (resetFD : PxFilterData → PxFilterData) (w : World)
    (a : EntityID) (posA : Vec3) (b : EntityID) (posB : Vec3) :
    getFilterData ((addFixedJoint resetFD w a posA b posB true).bodies a)
    = getFilterData (w.bodies a) := by
  unfold addFixedJoint World.setBody
  simp [getFilterData, setFilterData, disableJointCollision, filter_roundtrip]

/-- Claim C4: `addFixedJoint` sets entityA's body world pose to exactly
`inverse(localAnchorA) * currentPoseB * localAnchorB`, with
`currentPoseB` read at the start of the call and both anchors
translation-only (identity-rotation) transforms. -/
theorem addFixedJoint_sets_pose_to_formula (resetFD : PxFilterData → PxFilterData)
    (w : World) (a : EntityID) (posA : Vec3) (b : EntityID) (posB : Vec3) (u : Bool) :
    ((addFixedJoint resetFD w a posA b posB u).bodies a).pose
    = (((⟨posA, Quat.identity⟩ : PxTransform).getInverse.tmul
         (w.bodies b).pose).tmul ⟨posB, Quat.identity⟩) :=
  addFixedJoint_self_pose resetFD w a posA b posB u

/-- Claim C10: `addFixedJoint(entityA, _, entityB, _, useWorkaround)`
never changes entityB's body world pose, for either value of
`useWorkaround` (the call teleports only entityA's body). -/
theorem addFixedJoint_preserves_entityB_pose (resetFD : PxFilterData → PxFilterData)
    (w : World) (a : EntityID) (posA : Vec3) (b : EntityID) (posB : Vec3) (u : Bool)
    (hab : a ≠ b) :
    ((addFixedJoint resetFD w a posA b posB u).bodies b).pose = (w.bodies b).pose := by
  rw [addFixedJoint_other_body _ _ _ _ _ _ _ (Ne.symm hab)]

/-- Claim C10, witness: evaluated at a concrete world with the
workaround enabled. -/
theorem addFixedJoint_preserves_entityB_pose_witness :
    ((addFixedJoint id sampleWorld 0 ⟨0, 0, 0⟩ 1 ⟨0, 0, 0⟩ true).bodies 1).pose
    = (sampleWorld.bodies 1).pose :=
  addFixedJoint_preserves_entityB_pose id sampleWorld 0 ⟨0, 0, 0⟩ 1 ⟨0, 0, 0⟩ true
    (by decide)

/-! ## Claim theorems: state synchronization (`updateStates`) -/

theorem foldl_writeBack_not_referenced (l : List DynActor) (ents : EntityID → Entity)
    (i : EntityID) (h : ∀ a ∈ l, a.userData ≠ i) :
    List.foldl writeBack ents l i = ents i := by
  induction l generalizing ents with
  | nil => rfl
  | cons x xs ih =>
    simp only [List.foldl_cons]
    rw [ih _ (fun a ha => h a (List.mem_cons_of_mem x ha))]
    simp [writeBack, Ne.symm (h x (List.mem_cons_self x xs))]

theorem foldl_writeBack_scale (l : List DynActor) (ents : EntityID → Entity) (i : EntityID) :
    (List.foldl writeBack ents l i).scale = (ents i).scale := by
  induction l generalizing ents with
  | nil => rfl
  | cons x xs ih =>
    simp only [List.foldl_cons]
    rw [ih]
    by_cases hx : i = x.userData
    · subst hx
      simp [writeBack]
    · simp [writeBack, hx]

theorem foldl_writeBack_referenced (l : List DynActor) (ents : EntityID → Entity)
    (a : DynActor) (hnd : (l.map DynActor.userData).Nodup) (ha : a ∈ l) :
    List.foldl writeBack ents l a.userData
    = { position := toVec3 a.pose.p, rotation := toQuat a.pose.q,
        scale := (ents a.userData).scale } := by
  induction l generalizing ents with
  | nil => cases ha
  | cons x xs ih =>
    simp only [List.foldl_cons]
    rcases List.mem_cons.mp ha with rfl | haxs
    · have hnotin : ∀ b ∈ xs, b.userData ≠ a.userData := by
        intro b hb he
        exact (List.nodup_cons.mp hnd).1 (he ▸ List.mem_map_of_mem DynActor.userData hb)
      rw [foldl_writeBack_not_referenced xs _ _ hnotin]
      simp [writeBack]
    · have hne : x.userData ≠ a.userData := by
        intro he
        exact (List.nodup_cons.mp hnd).1 (he ▸ List.mem_map_of_mem DynActor.userData haxs)
      rw [ih _ (List.nodup_cons.mp hnd).2 haxs]
      simp [writeBack, Ne.symm hne]

/-- Claim C8: `updateStates()` writes, for every dynamic actor (with the
program's injective body-to-entity back-references), the actor's world
pose translation into `position` and rotation into `rotation` of the
entity behind its `userData`, keeps that entity's `scale`, and modifies
nothing else: entities not referenced by a dynamic actor (in particular
every static entity) are untouched, and no entity's `scale` changes. -/
theorem updateStates_spec (s : Scene) :
    ((s.dynActors.map DynActor.userData).Nodup →
      ∀ a ∈ s.dynActors,
        (updateStates s).entities a.userData
        = { position := toVec3 a.pose.p, rotation := toQuat a.pose.q,
            scale := (s.entities a.userData).scale }) ∧
    (∀ i, (∀ a ∈ s.dynActors, a.userData ≠ i) →
      (updateStates s).entities i = s.entities i) ∧
    (∀ i, ((updateStates s).entities i).scale = (s.entities i).scale) := by
  refine ⟨fun hnd a ha => ?_, fun i hi => ?_, fun i => ?_⟩
  · exact foldl_writeBack_referenced s.dynActors s.entities a hnd ha
  · exact foldl_writeBack_not_referenced s.dynActors s.entities i hi
  · exact foldl_writeBack_scale s.dynActors s.entities i

/-- A sample entity. -/
def sampleEntity : Entity := ⟨⟨1, 1, 1⟩, Quat.identity, ⟨2, 2, 2⟩⟩

/-- A sample dynamic actor whose back-reference points to entity 5. -/
def sampleActor : DynActor := ⟨⟨⟨7, 8, 9⟩, ⟨0, 0, 1, 0⟩⟩, 5⟩

/-- A sample scene with one dynamic actor. -/
def sampleScene : Scene := ⟨[sampleActor], fun _ => sampleEntity⟩

/-- Claim C8, witness: the write-back evaluated on the sample scene. -/
theorem updateStates_spec_witness :
    (updateStates sampleScene).entities sampleActor.userData
    = { position := toVec3 sampleActor.pose.p, rotation := toQuat sampleActor.pose.q,
        scale := (sampleScene.entities sampleActor.userData).scale } :=
  (updateStates_spec sampleScene).1 (by simp [sampleScene])
    sampleActor (by simp [sampleScene])

/-! ## Claim theorems: loop trigger and exit codes -/

theorem loopTicks_armed_getD (idA idB : EntityID) (ts : List ℚ) (n : Nat) :
    (loopTicks idA idB true ts).getD n [] = [] := by
  induction ts generalizing n with
  | nil => simp [loopTicks]
  | cons t ts ih =>
    cases n with
    | zero => simp [loopTicks]
    | succ m => simpa [loopTicks] using ih m

/-- Claim C7: in every run of the render/update loop (`ts` the elapsed
seconds at each tick), the trigger block runs exactly at the first tick
whose elapsed time exceeds 3 seconds and at no other tick, and on that
tick it performs, in order: filter-data log of A, of B, the joint
creation, then filter-data log of A, of B (`jointTickEvents`); every
other tick performs none of these. -/
theorem loopTicks_fires_exactly_first (idA idB : EntityID) (ts : List ℚ) (i : Nat)
    (hi : i < ts.length) :
    (loopTicks idA idB false ts).getD i []
    = if 3 < ts.getD i 0 ∧ ∀ j, j < i → ¬ 3 < ts.getD j 0 then
        jointTickEvents idA idB
      else [] := by
  induction ts generalizing i with
  | nil => simp at hi
  | cons t ts ih =>
    cases i with
    | zero =>
      by_cases h : 3 < t
      · simp [loopTicks, h]
      · simp [loopTicks, h]
    | succ n =>
      by_cases h : 3 < t
      · have hcond : ¬ (3 < (t :: ts).getD (n + 1) 0 ∧
            ∀ j, j < n + 1 → ¬ 3 < (t :: ts).getD j 0) := by
          rintro ⟨-, h2⟩
          exact h2 0 (by omega) (by simpa using h)
        rw [if_neg hcond]
        have hlist : loopTicks idA idB false (t :: ts)
            = jointTickEvents idA idB :: loopTicks idA idB true ts := by
          simp [loopTicks, h]
        rw [hlist]
        simpa using loopTicks_armed_getD idA idB ts n
      · have hcond : (3 < (t :: ts).getD (n + 1) 0 ∧
            ∀ j, j < n + 1 → ¬ 3 < (t :: ts).getD j 0) ↔
            (3 < ts.getD n 0 ∧ ∀ j, j < n → ¬ 3 < ts.getD j 0) := by
          constructor
          · rintro ⟨h1, h2⟩
            exact ⟨by simpa using h1, fun j hj => by simpa using h2 (j + 1) (by omega)⟩
          · rintro ⟨h1, h2⟩
            refine ⟨by simpa using h1, fun j hj => ?_⟩
            cases j with
            | zero => simpa using h
            | succ m => simpa using h2 m (by omega)
        rw [if_congr hcond rfl rfl]
        have hlist : loopTicks idA idB false (t :: ts)
            = [] :: loopTicks idA idB false ts := by
          simp [loopTicks, h]
        rw [hlist]
        simpa using ih n (by simpa using Nat.lt_of_succ_lt_succ hi)

/-- Claim C7, witness: on a four-tick run whose third tick is the first
one past 3 seconds, the trigger block runs at that tick. -/
theorem loopTicks_fires_exactly_first_witness :
    (loopTicks 0 1 false [1, 2, 7/2, 5]).getD 2 [] = jointTickEvents 0 1 := by
  rw [loopTicks_fires_exactly_first 0 1 [1, 2, 7/2, 5] 2 (by simp)]
  rw [if_pos]
  refine ⟨by norm_num [List.getD_cons_succ, List.getD_cons_zero], fun j hj => ?_⟩
  interval_cases j <;> norm_num [List.getD_cons_succ, List.getD_cons_zero]

/-- Claim C9: the exit code of `main` is 1 exactly when the
platform/windowing init or the graphics init fails; it is 0 otherwise
(normal shutdown), and when `initPhysics()` reports an
already-initialized session the program exits with 0 without entering
the render/update loop. -/
theorem main_exit_codes (env : Env) :
    ((mainProgram env).1 = 1 ↔ (env.sdlOk = false ∨ env.gfxOk = false)) ∧
    ((mainProgram env).1 = 0 ↔ (env.sdlOk = true ∧ env.gfxOk = true)) ∧
    (env.sdlOk = true → env.gfxOk = true → (initPhysics env.phys0).1 = false →
      mainProgram env = (0, false)) := by
  rcases env with ⟨sdl, gfx, p⟩
  cases sdl <;> cases gfx <;> by_cases hp : (initPhysics p).1 = false <;>
    simp [mainProgram, hp]

/-- Claim C9, witness: with windowing and graphics succeeding but the
physics session already initialized, `main` exits 0 without entering the
loop. -/
theorem main_exit_codes_witness :
    mainProgram ⟨true, true, (initPhysics physStart).2⟩ = (0, false) :=
  (main_exit_codes ⟨true, true, (initPhysics physStart).2⟩).2.2 rfl rfl (by decide)
